import Mathlib

/-!
Verification of the JSON-RPC relay and remote tool client of the
`mcd-coupon` repository, as a shallow embedding in Lean 4.

The embedding covers:
* `src/mcp_server/types.rs` — the relay's request/response data model,
  including the custom deserializer for the optional request id;
* `src/mcp_server/handlers.rs` — the relay's dispatch logic
  (`handle_mcp_request` and the per-method handlers);
* `src/mcp/client.rs` — the remote tool client's `validate_token` and
  `call_tool` post-processing logic.

Network and serde effects are made explicit: the remote client is modelled
by the outcomes of its four operations, HTTP exchanges by their
status/body outcome, and serde parsing by total Lean functions over an
inductive JSON value type.  Exact serde error message texts are abstracted
(the code only branches on success/failure of parsing, never on the text).
-/

set_option autoImplicit false

/-- Model of a `serde_json::Number`: internally a non-negative integer
(`PosInt`, a `u64`), a negative integer (`NegInt`), or a float.  Only the
`posInt` payload matters to `as_u64`, mirroring `Number::as_u64`. -/
inductive JsonNumber where
  | posInt (n : Nat)
  | negInt (n : Int)
  | float
  deriving Repr, DecidableEq

/-- Model of a `serde_json::Value`. -/
inductive JsonValue where
  | null
  | bool (b : Bool)
  | num (n : JsonNumber)
  | str (s : String)
  | arr (items : List JsonValue)
  | obj (fields : List (String × JsonValue))

/-- Mirrors `serde_json::Number::as_u64`: only a `PosInt` payload yields a
value. -/
def JsonNumber.as_u64 : JsonNumber → Option Nat
  | .posInt n => some n
  | _ => none

/-- Mirrors `u32::try_from(v).ok()` for a `u64` value `v`. -/
def u32_try_from (v : Nat) : Option Nat :=
  if v < 4294967296 then some v else none

/-- Mirrors Rust `str::parse::<u32>`: an optional leading `+`, then at
least one ASCII digit, and the resulting value must fit in a `u32`
(checked-arithmetic overflow during the Rust digit loop is equivalent to
the final value exceeding `u32::MAX`, since appending digits never
decreases the accumulated value). -/
def parse_u32_string (s : String) : Option Nat :=
  let ds := if s.data.head? = some '+' then s.data.tail else s.data
  if ds.isEmpty then none
  else if ds.all Char.isDigit then
    let v := ds.foldl (fun a c => a * 10 + (c.toNat - 48)) 0
    if v < 4294967296 then some v else none
  else none

/-- Mirrors `deserialize_optional_id` in `src/mcp_server/types.rs`:
absent or `null` id gives a notification (`none`); a JSON number goes
through `as_u64` then `u32::try_from`; a JSON string goes through
`str::parse::<u32>`; every other shape is a deserialization error. -/
def deserialize_optional_id : Option JsonValue → Except String (Option Nat)
  | none => .ok none
  | some .null => .ok none
  | some (.num n) =>
    match (n.as_u64).bind u32_try_from with
    | some v => .ok (some v)
    | none => .error "Invalid ID: number out of range"
  | some (.str s) =>
    match parse_u32_string s with
    | some v => .ok (some v)
    | none => .error "Invalid ID: string is not a valid number"
  | some _ => .error "Invalid ID: must be number, string, or null"

/-- The relay's inbound request (`McpRequest` in `src/mcp_server/types.rs`),
after deserialization: the `id` field is already the output of
`deserialize_optional_id`. -/
structure McpRequest where
  jsonrpc : String
  method : String
  params : Option JsonValue
  id : Option Nat

/-- JSON-RPC error object (`McpError` in `src/mcp_server/types.rs`). -/
structure McpError where
  code : Int
  message : String
  data : Option JsonValue

/-- Content item (`McpContent` in `src/mcp_server/types.rs`). -/
structure McpContent where
  content_type : String
  text : Option String
  data : Option JsonValue

/-- Tool result (`McpToolResult` in `src/mcp_server/types.rs`). -/
structure McpToolResult where
  content : List McpContent
  is_error : Bool

/-- The relay's outbound response (`McpResponse` in
`src/mcp_server/types.rs`).  The `result` field holds an already
serialized `serde_json::Value`, as in the source. -/
structure McpResponse where
  jsonrpc : String
  result : Option JsonValue
  error : Option McpError
  id : Nat

/-- Serialization of `McpContent` (serde derive): the `text` field has no
skip attribute, so a `None` text serializes as JSON `null`; the `data`
field is skipped when absent. -/
def McpContent.toJson (c : McpContent) : JsonValue :=
  .obj ([("type", .str c.content_type),
         ("text", match c.text with | some s => .str s | none => .null)] ++
        (match c.data with | some d => [("data", d)] | none => []))

/-- Serialization of `McpToolResult` (serde derive, `is_error` renamed to
`isError`). -/
def McpToolResult.toJson (r : McpToolResult) : JsonValue :=
  .obj [("content", .arr (r.content.map McpContent.toJson)),
        ("isError", .bool r.is_error)]

/-- Mirrors `McpContent::text`. -/
def McpContent.textItem (content : String) : McpContent :=
  { content_type := "text", text := some content, data := none }

/-- Mirrors `McpResponse::success_tool_result`. -/
def McpResponse.success_tool_result (id : Nat) (content : List McpContent) :
    McpResponse :=
  { jsonrpc := "2.0"
    result := some (McpToolResult.toJson { content := content, is_error := false })
    error := none
    id := id }

/-- Mirrors `McpResponse::success` (the payload is already serialized to a
`JsonValue`, standing for `serde_json::to_value`). -/
def McpResponse.success (id : Nat) (data : JsonValue) : McpResponse :=
  { jsonrpc := "2.0", result := some data, error := none, id := id }

/-- Mirrors `McpResponse::error` (named `mkError` because `error` is taken
by the field of the same name). -/
def McpResponse.mkError (id : Nat) (code : Int) (message : String) :
    McpResponse :=
  { jsonrpc := "2.0"
    result := none
    error := some { code := code, message := message, data := none }
    id := id }

/-- Mirrors `McpResponse::tool_error`. -/
def McpResponse.tool_error (id : Nat) (message : String) : McpResponse :=
  { jsonrpc := "2.0"
    result := some (McpToolResult.toJson
      { content := [{ content_type := "text", text := some message, data := none }]
        is_error := true })
    error := none
    id := id }

/-- Parameters of `tools/call` (`McpToolCallParams` in
`src/mcp_server/types.rs`). -/
structure McpToolCallParams where
  name : String
  arguments : Option JsonValue

/-- Parameters of `system.describeMethod` (`McpDescribeMethodParams`). -/
structure McpDescribeMethodParams where
  name : String

/-- Looks up a key in a JSON object's field list (serde_json object keys
are unique, so first-match lookup is faithful). -/
def JsonValue.lookup : JsonValue → String → Option JsonValue
  | .obj fields, key => fields.lookup key
  | _, _ => none

/-- Mirrors `serde_json::from_value::<McpToolCallParams>`: requires a JSON
object with a string field `name`; `arguments` is an optional arbitrary
value (`null` deserializes to `None`); unknown fields are ignored (serde's
default).  The error strings stand for serde's messages, whose exact text
the handlers never inspect. -/
def parseToolCallParams : JsonValue → Except String McpToolCallParams
  | .obj fields =>
    match fields.lookup "name" with
    | some (.str name) =>
      .ok { name := name
            arguments :=
              match fields.lookup "arguments" with
              | some .null => none
              | some v => some v
              | none => none }
    | some _ => .error "invalid type for field name"
    | none => .error "missing field name"
  | _ => .error "invalid type: expected object"

/-- Mirrors `serde_json::from_value::<McpDescribeMethodParams>`: requires
a JSON object with a string field `name`. -/
def parseDescribeMethodParams : JsonValue → Except String McpDescribeMethodParams
  | .obj fields =>
    match fields.lookup "name" with
    | some (.str name) => .ok { name := name }
    | some _ => .error "invalid type for field name"
    | none => .error "missing field name"
  | _ => .error "invalid type: expected object"

/-- Model of the remote tool client (`McpClient` in `src/mcp/client.rs`)
as seen by the relay's handlers: each of the four remote operations is
modelled by the outcome it produces for the current request (`Ok` payload
or an error message, the display of the `anyhow` error). -/
structure McpClient where
  get_available_coupons : Except String String
  auto_bind_coupons : Except String String
  get_my_coupons : Except String String
  get_current_time : Except String String

/-- The four tool names served by the relay, in source order. -/
def mcpToolNames : List String :=
  ["available-coupons", "auto-bind-coupons", "my-coupons", "now-time-info"]

/-- Mirrors `handle_initialize`: a static success payload. -/
def handle_initialize (id : Nat) : McpResponse :=
  McpResponse.success id
    (.obj [("protocolVersion", .str "2024-11-05"),
           ("capabilities", .obj [("tools", .obj [])]),
           ("serverInfo", .obj [("name", .str "mcd-coupon"),
                                ("version", .str "0.1.0")])])

/-- The empty-object input schema shared by the four tool descriptors in
`handle_tools_list`. -/
def emptyObjectSchema : JsonValue :=
  .obj [("type", .str "object"),
        ("properties", .obj []),
        ("required", .arr [])]

/-- Mirrors `handle_tools_list`: the static list of four tool
descriptors. -/
def handle_tools_list (id : Nat) : McpResponse :=
  McpResponse.success id
    (.obj [("tools", .arr
      [.obj [("name", .str "available-coupons"),
             ("description", .str "获取所有可用的麦当劳优惠券"),
             ("inputSchema", emptyObjectSchema)],
       .obj [("name", .str "auto-bind-coupons"),
             ("description", .str "一键领取所有可用的麦当劳优惠券"),
             ("inputSchema", emptyObjectSchema)],
       .obj [("name", .str "my-coupons"),
             ("description", .str "查看已领取的麦当劳优惠券"),
             ("inputSchema", emptyObjectSchema)],
       .obj [("name", .str "now-time-info"),
             ("description", .str "获取当前时间信息"),
             ("inputSchema", emptyObjectSchema)]])])

/-- Mirrors `handle_available_coupons`: maps the remote call's outcome to
a tool-result success or a tool-level error. -/
def handle_available_coupons (client : McpClient) (id : Nat) : McpResponse :=
  match client.get_available_coupons with
  | .ok result => McpResponse.success_tool_result id [McpContent.textItem result]
  | .error e => McpResponse.tool_error id e

/-- Mirrors `handle_auto_bind_coupons`. -/
def handle_auto_bind_coupons (client : McpClient) (id : Nat) : McpResponse :=
  match client.auto_bind_coupons with
  | .ok result => McpResponse.success_tool_result id [McpContent.textItem result]
  | .error e => McpResponse.tool_error id e

/-- Mirrors `handle_my_coupons`. -/
def handle_my_coupons (client : McpClient) (id : Nat) : McpResponse :=
  match client.get_my_coupons with
  | .ok result => McpResponse.success_tool_result id [McpContent.textItem result]
  | .error e => McpResponse.tool_error id e

/-- Mirrors `handle_current_time` (the `now-time-info` tool). -/
def handle_current_time (client : McpClient) (id : Nat) : McpResponse :=
  match client.get_current_time with
  | .ok result => McpResponse.success_tool_result id [McpContent.textItem result]
  | .error e => McpResponse.tool_error id e

/-- Mirrors `handle_tools_call`: parse `params` into
`McpToolCallParams` (`-32602` on failure), then dispatch on the tool name
(`-32601` when unknown). -/
def handle_tools_call (client : McpClient) (request : McpRequest) : McpResponse :=
  let id := request.id.getD 0
  match (match request.params with
         | some params => parseToolCallParams params
         | none => .error "Missing params") with
  | .error e => McpResponse.mkError id (-32602) ("Invalid params: " ++ e)
  | .ok tool_params =>
    match tool_params.name with
    | "available-coupons" => handle_available_coupons client id
    | "auto-bind-coupons" => handle_auto_bind_coupons client id
    | "my-coupons" => handle_my_coupons client id
    | "now-time-info" => handle_current_time client id
    | _ => McpResponse.mkError id (-32601) ("Tool not found: " ++ tool_params.name)

/-- Mirrors `handle_list_methods`: the five protocol methods followed by
the four tools in `tools/call:` form. -/
def handle_list_methods (id : Nat) : McpResponse :=
  let all_methods :=
    ["initialize", "tools/list", "tools/call",
     "system.listMethods", "system.describeMethod"] ++
    mcpToolNames.map (fun tool => "tools/call:" ++ tool)
  McpResponse.success id (.arr (all_methods.map JsonValue.str))

/-- Tool example metadata (`McpToolExample` in `src/mcp_server/types.rs`);
never populated by the handlers but part of the data model. -/
structure McpToolExample where
  name : String
  description : String
  parameters : JsonValue
  returns : JsonValue

/-- Method descriptor (`McpToolDescription` in `src/mcp_server/types.rs`). -/
structure McpToolDescription where
  name : String
  description : String
  parameters : JsonValue
  returns : JsonValue
  tags : List String
  examples : Option (List McpToolExample)

/-- Serialization of `McpToolExample` (serde derive). -/
def McpToolExample.toJson (e : McpToolExample) : JsonValue :=
  .obj [("name", .str e.name), ("description", .str e.description),
        ("parameters", e.parameters), ("returns", e.returns)]

/-- Serialization of `McpToolDescription` (serde derive; `examples` is
skipped when absent). -/
def McpToolDescription.toJson (d : McpToolDescription) : JsonValue :=
  .obj ([("name", .str d.name),
         ("description", .str d.description),
         ("parameters", d.parameters),
         ("returns", d.returns),
         ("tags", .arr (d.tags.map JsonValue.str))] ++
        (match d.examples with
         | some es => [("examples", .arr (es.map McpToolExample.toJson))]
         | none => []))

/-- Mirrors `describe_initialize`. -/
def describe_initialize : McpToolDescription :=
  { name := "initialize"
    description := "初始化MCP连接"
    parameters := .obj
      [("type", .str "object"),
       ("properties", .obj
         [("protocolVersion", .obj [("type", .str "string"),
                                    ("description", .str "协议版本")]),
          ("capabilities", .obj [("type", .str "object"),
                                 ("description", .str "客户端能力")]),
          ("clientInfo", .obj [("type", .str "object"),
                               ("description", .str "客户端信息")])])]
    returns := .obj
      [("type", .str "object"),
       ("properties", .obj
         [("protocolVersion", .obj [("type", .str "string")]),
          ("capabilities", .obj [("type", .str "object")]),
          ("serverInfo", .obj [("type", .str "object")])])]
    tags := ["system", "initialization"]
    examples := none }

/-- Mirrors `describe_tools_list`. -/
def describe_tools_list : McpToolDescription :=
  { name := "tools/list"
    description := "列出所有可用的MCP工具"
    parameters := .obj [("type", .str "object"),
                        ("properties", .obj []),
                        ("required", .arr [])]
    returns := .obj
      [("type", .str "object"),
       ("properties", .obj
         [("tools", .obj
           [("type", .str "array"),
            ("items", .obj
              [("type", .str "object"),
               ("properties", .obj
                 [("name", .obj [("type", .str "string")]),
                  ("description", .obj [("type", .str "string")]),
                  ("inputSchema", .obj [("type", .str "object")])])])])])]
    tags := ["tools", "introspection"]
    examples := none }

/-- Mirrors `describe_tools_call`. -/
def describe_tools_call : McpToolDescription :=
  { name := "tools/call"
    description := "调用指定的MCP工具"
    parameters := .obj []
    returns := .obj []
    tags := ["system", "tools"]
    examples := none }

/-- Mirrors `describe_list_methods`. -/
def describe_list_methods : McpToolDescription :=
  { name := "system.listMethods"
    description := "列出所有可用的MCP方法"
    parameters := .obj []
    returns := .obj []
    tags := ["system", "introspection"]
    examples := none }

/-- Mirrors `describe_describe_method`. -/
def describe_describe_method : McpToolDescription :=
  { name := "system.describeMethod"
    description := "获取指定MCP方法的详细描述"
    parameters := .obj []
    returns := .obj []
    tags := ["system", "introspection"]
    examples := none }

/-- Mirrors `describe_available_coupons_tool`. -/
def describe_available_coupons_tool : McpToolDescription :=
  { name := "available-coupons"
    description := "获取所有可用的麦当劳优惠券"
    parameters := .obj []
    returns := .obj []
    tags := ["coupons", "available"]
    examples := none }

/-- Mirrors `describe_auto_bind_coupons_tool`. -/
def describe_auto_bind_coupons_tool : McpToolDescription :=
  { name := "auto-bind-coupons"
    description := "一键领取所有可用的麦当劳优惠券"
    parameters := .obj []
    returns := .obj []
    tags := ["coupons", "claim"]
    examples := none }

/-- Mirrors `describe_my_coupons_tool`. -/
def describe_my_coupons_tool : McpToolDescription :=
  { name := "my-coupons"
    description := "查看已领取的麦当劳优惠券"
    parameters := .obj []
    returns := .obj []
    tags := ["coupons", "my"]
    examples := none }

/-- Mirrors `describe_current_time_tool`. -/
def describe_current_time_tool : McpToolDescription :=
  { name := "now-time-info"
    description := "获取当前时间信息"
    parameters := .obj []
    returns := .obj []
    tags := ["time"]
    examples := none }

/-- Mirrors `handle_describe_method`: parse `params` into
`McpDescribeMethodParams` (`-32602` on failure), then match the name
against the five protocol methods and the four tools (each bare or with
the `tools/call:` alias); unknown names give `-32601`. -/
def handle_describe_method (request : McpRequest) : McpResponse :=
  let id := request.id.getD 0
  match (match request.params with
         | some params => parseDescribeMethodParams params
         | none => .error "Missing params") with
  | .error e => McpResponse.mkError id (-32602) ("Invalid params: " ++ e)
  | .ok describe_params =>
    match describe_params.name with
    | "initialize" => McpResponse.success id describe_initialize.toJson
    | "tools/list" => McpResponse.success id describe_tools_list.toJson
    | "tools/call" => McpResponse.success id describe_tools_call.toJson
    | "system.listMethods" => McpResponse.success id describe_list_methods.toJson
    | "system.describeMethod" =>
      McpResponse.success id describe_describe_method.toJson
    | "available-coupons" | "tools/call:available-coupons" =>
      McpResponse.success id describe_available_coupons_tool.toJson
    | "auto-bind-coupons" | "tools/call:auto-bind-coupons" =>
      McpResponse.success id describe_auto_bind_coupons_tool.toJson
    | "my-coupons" | "tools/call:my-coupons" =>
      McpResponse.success id describe_my_coupons_tool.toJson
    | "now-time-info" | "tools/call:now-time-info" =>
      McpResponse.success id describe_current_time_tool.toJson
    | _ => McpResponse.mkError id (-32601)
             ("Method not found: " ++ describe_params.name)

/-- The dispatch table inside `handle_mcp_request` (the `match
request.method` block), run once the id is known to be present. -/
def dispatch (client : McpClient) (request : McpRequest) (id : Nat) :
    McpResponse :=
  match request.method with
  | "initialize" => handle_initialize id
  | "tools/list" => handle_tools_list id
  | "tools/call" => handle_tools_call client request
  | "system.listMethods" => handle_list_methods id
  | "system.describeMethod" => handle_describe_method request
  | _ => McpResponse.mkError id (-32601)
           ("Method not found: " ++ request.method)

/-- Mirrors `handle_mcp_request` in `src/mcp_server/handlers.rs`: a
request whose id is absent (a notification) produces no response object;
otherwise the method dispatch produces exactly one response. -/
def handle_mcp_request (client : McpClient) (request : McpRequest) :
    Option McpResponse :=
  match request.id with
  | none => none
  | some id => some (dispatch client request id)

/-- The HTTP reply of the POST handler: the status is `200 OK` on both the
notification branch and the dispatch branch; `none` stands for the empty
body, `some r` for the serialized response `r`. -/
def mcp_http_reply (client : McpClient) (request : McpRequest) :
    Nat × Option McpResponse :=
  (200, handle_mcp_request client request)

namespace Mcp

/-- Content item on the client side (`McpContent` in `src/mcp/types.rs`;
unlike the server-side type it has no `data` field). -/
structure McpContent where
  content_type : String
  text : Option String

/-- Tool result on the client side (`McpToolResult` in
`src/mcp/types.rs`). -/
structure McpToolResult where
  content : List McpContent
  is_error : Bool

/-- JSON-RPC error on the client side (`McpError` in `src/mcp/types.rs`). -/
structure McpError where
  code : Int
  message : String

/-- Remote JSON-RPC response as decoded by the client (`McpResponse` in
`src/mcp/types.rs`): the result, when present, is already typed as a tool
result. -/
structure McpResponse where
  jsonrpc : String
  result : Option McpToolResult
  error : Option McpError
  id : Nat

end Mcp

/-- Outcome of one HTTP exchange with the remote endpoint: the final
status code and the response body text. -/
structure HttpResponse where
  status : Nat
  body : String

/-- Mirrors `reqwest::StatusCode::is_success`: true exactly for the 2xx
range. -/
def status_is_success (status : Nat) : Bool :=
  200 ≤ status && status ≤ 299

/-- Mirrors `McpClient::validate_token` in `src/mcp/client.rs`, with the
network exchange made explicit: `probe` is the outcome of POSTing the
`system.listMethods` probe (`Except.error` for a transport-level failure,
`Except.ok status` for a completed exchange).  HTTP 401 means the token is
invalid; any other completed status means it is treated as valid; a
transport failure is surfaced as an error string, never as `false`. -/
def validate_token (probe : Except String Nat) : Except String Bool :=
  match probe with
  | .ok status => if status == 401 then .ok false else .ok true
  | .error e => .error ("网络请求失败: " ++ e)

/-- Mirrors the response processing of `McpClient::call_tool` in
`src/mcp/client.rs`.  `parseResponse` stands for
`serde_json::from_str::<McpResponse>` applied to the body, and `send` for
the outcome of the HTTP POST (transport errors propagate via `?`).  The
branch order is the source's: transport error, non-2xx status (with
status and raw body), parse failure, protocol `error` (code + message),
missing `result`, tool-level `isError` (newline-join of every content
item's text), and finally success (newline-join of the text of every
`text`-typed content item). -/
def call_tool_outcome (parseResponse : String → Except String Mcp.McpResponse)
    (send : Except String HttpResponse) : Except String String :=
  match send with
  | .error e => .error e
  | .ok response =>
    if !(status_is_success response.status) then
      .error ("MCP Server error: " ++ toString response.status ++ " - " ++
              response.body)
    else
      match parseResponse response.body with
      | .error e =>
        .error ("Failed to parse MCP response: " ++ e ++ " - body: " ++
                response.body)
      | .ok mcp_response =>
        match mcp_response.error with
        | some err => .error ("MCP error " ++ toString err.code ++ ": " ++
                              err.message)
        | none =>
          match mcp_response.result with
          | none => .error "MCP response missing result"
          | some result =>
            if result.is_error then
              .error ("MCP tool error: " ++
                String.intercalate "\n" (result.content.filterMap (·.text)))
            else
              .ok (String.intercalate "\n"
                (((result.content.filter (·.content_type == "text")).filterMap
                  (·.text))))

/-- Decimal digit list of a natural number (most significant first), used
to exhibit the canonical numeric string carrying a given id value. -/
def natDecDigits (n : Nat) : List Char :=
  if _h : n < 10 then [Nat.digitChar n]
  else natDecDigits (n / 10) ++ [Nat.digitChar (n % 10)]
termination_by n
decreasing_by
  exact Nat.div_lt_self (by omega) (by omega)

/-- The canonical decimal string of a natural number, e.g. `53 ↦ "53"`. -/
def natDecString (n : Nat) : String :=
  ⟨natDecDigits n⟩

/-- The five method names the relay's top-level dispatch recognizes. -/
def mcpMethodNames : List String :=
  ["initialize", "tools/list", "tools/call",
   "system.listMethods", "system.describeMethod"]

/-- The thirteen spellings `system.describeMethod` recognizes: the five
protocol methods, the four tools bare, and the four tools with the
`tools/call:` alias. -/
def describeRecognizedNames : List String :=
  ["initialize", "tools/list", "tools/call",
   "system.listMethods", "system.describeMethod",
   "available-coupons", "auto-bind-coupons", "my-coupons", "now-time-info",
   "tools/call:available-coupons", "tools/call:auto-bind-coupons",
   "tools/call:my-coupons", "tools/call:now-time-info"]

/-- Statement helper: the modelled remote outcome the relay consults for
each of the four tool names (the `_` branch is never reached under a
`mcpToolNames` membership hypothesis). -/
def remote_tool_outcome (client : McpClient) : String → Except String String
  | "available-coupons" => client.get_available_coupons
  | "auto-bind-coupons" => client.auto_bind_coupons
  | "my-coupons" => client.get_my_coupons
  | "now-time-info" => client.get_current_time
  | _ => .error ""

/-- Exactly one of the `result` and `error` fields of a response is
populated. -/
def McpResponse.exactlyOneOutcome (r : McpResponse) : Prop :=
  (r.result.isSome = true ∧ r.error = none) ∨
  (r.result = none ∧ r.error.isSome = true)

/-- Statement helper: the `system.describeMethod` request carrying a given
name, with a present id. -/
def describe_request (id : Nat) (name : String) : McpRequest :=
  { jsonrpc := "2.0"
    method := "system.describeMethod"
    params := some (.obj [("name", .str name)])
    id := some id }

/-- Fixture client whose four operations all succeed, for witnesses. -/
def okClient : McpClient :=
  { get_available_coupons := .ok "coupon list"
    auto_bind_coupons := .ok "bound"
    get_my_coupons := .ok "mine"
    get_current_time := .ok "now" }

/-- Statement helper: the canonical `tools/call` request naming a tool,
with a present id. -/
def tool_call_request (id : Nat) (tool : String) : McpRequest :=
  { jsonrpc := "2.0"
    method := "tools/call"
    params := some (.obj [("name", .str tool)])
    id := some id }

/-- Fixture: a `tools/list` notification (no id). -/
def notificationRequest : McpRequest :=
  { jsonrpc := "2.0", method := "tools/list", params := none, id := none }

/-- Fixture: a request with an unrecognized method and id 3. -/
def unknownMethodRequest : McpRequest :=
  { jsonrpc := "2.0", method := "foo.bar", params := none, id := some 3 }

/-- Fixture: a request with an unrecognized method and id 5. -/
def unknownMethodRequest5 : McpRequest :=
  { jsonrpc := "2.0", method := "foo.bar", params := none, id := some 5 }

example : deserialize_optional_id (some (.num (.posInt 7))) = .ok (some 7) := by
  rfl

example : deserialize_optional_id (some (.str "+41")) = .ok (some 41) := by
  rfl

example : deserialize_optional_id (some (.num (.posInt 4294967296))) =
    .error "Invalid ID: number out of range" := by
  rfl

example : deserialize_optional_id (some (.bool true)) =
    .error "Invalid ID: must be number, string, or null" := by
  rfl

lemma exactlyOne_success (id : Nat) (d : JsonValue) :
    (McpResponse.success id d).exactlyOneOutcome := by
  left
  simp [McpResponse.success, McpResponse.exactlyOneOutcome]

lemma exactlyOne_mkError (id : Nat) (code : Int) (msg : String) :
    (McpResponse.mkError id code msg).exactlyOneOutcome := by
  right
  simp [McpResponse.mkError, McpResponse.exactlyOneOutcome]

lemma exactlyOne_success_tool_result (id : Nat) (content : List McpContent) :
    (McpResponse.success_tool_result id content).exactlyOneOutcome := by
  left
  simp [McpResponse.success_tool_result, McpResponse.exactlyOneOutcome]

lemma exactlyOne_tool_error (id : Nat) (msg : String) :
    (McpResponse.tool_error id msg).exactlyOneOutcome := by
  left
  simp [McpResponse.tool_error, McpResponse.exactlyOneOutcome]

lemma handle_available_coupons_spec (client : McpClient) (id : Nat) :
    (handle_available_coupons client id).id = id ∧
    (handle_available_coupons client id).jsonrpc = "2.0" ∧
    (handle_available_coupons client id).exactlyOneOutcome := by
  unfold handle_available_coupons
  cases client.get_available_coupons with
  | ok r =>
    exact ⟨rfl, rfl, exactlyOne_success_tool_result id [McpContent.textItem r]⟩
  | error e => exact ⟨rfl, rfl, exactlyOne_tool_error id e⟩

lemma handle_auto_bind_coupons_spec (client : McpClient) (id : Nat) :
    (handle_auto_bind_coupons client id).id = id ∧
    (handle_auto_bind_coupons client id).jsonrpc = "2.0" ∧
    (handle_auto_bind_coupons client id).exactlyOneOutcome := by
  unfold handle_auto_bind_coupons
  cases client.auto_bind_coupons with
  | ok r =>
    exact ⟨rfl, rfl, exactlyOne_success_tool_result id [McpContent.textItem r]⟩
  | error e => exact ⟨rfl, rfl, exactlyOne_tool_error id e⟩

lemma handle_my_coupons_spec (client : McpClient) (id : Nat) :
    (handle_my_coupons client id).id = id ∧
    (handle_my_coupons client id).jsonrpc = "2.0" ∧
    (handle_my_coupons client id).exactlyOneOutcome := by
  unfold handle_my_coupons
  cases client.get_my_coupons with
  | ok r =>
    exact ⟨rfl, rfl, exactlyOne_success_tool_result id [McpContent.textItem r]⟩
  | error e => exact ⟨rfl, rfl, exactlyOne_tool_error id e⟩

lemma handle_current_time_spec (client : McpClient) (id : Nat) :
    (handle_current_time client id).id = id ∧
    (handle_current_time client id).jsonrpc = "2.0" ∧
    (handle_current_time client id).exactlyOneOutcome := by
  unfold handle_current_time
  cases client.get_current_time with
  | ok r =>
    exact ⟨rfl, rfl, exactlyOne_success_tool_result id [McpContent.textItem r]⟩
  | error e => exact ⟨rfl, rfl, exactlyOne_tool_error id e⟩

lemma handle_tools_call_spec (client : McpClient) (request : McpRequest)
    (id : Nat) (h : request.id = some id) :
    (handle_tools_call client request).id = id ∧
    (handle_tools_call client request).jsonrpc = "2.0" ∧
    (handle_tools_call client request).exactlyOneOutcome := by
  unfold handle_tools_call
  rw [h]
  simp only [Option.getD_some]
  split
  · exact ⟨rfl, rfl, exactlyOne_mkError id _ _⟩
  · split
    · exact handle_available_coupons_spec client id
    · exact handle_auto_bind_coupons_spec client id
    · exact handle_my_coupons_spec client id
    · exact handle_current_time_spec client id
    · exact ⟨rfl, rfl, exactlyOne_mkError id _ _⟩

lemma handle_describe_method_spec (request : McpRequest)
    (id : Nat) (h : request.id = some id) :
    (handle_describe_method request).id = id ∧
    (handle_describe_method request).jsonrpc = "2.0" ∧
    (handle_describe_method request).exactlyOneOutcome := by
  unfold handle_describe_method
  rw [h]
  simp only [Option.getD_some]
  split
  · exact ⟨rfl, rfl, exactlyOne_mkError id _ _⟩
  · split
    all_goals first
      | exact ⟨rfl, rfl, exactlyOne_success id _⟩
      | exact ⟨rfl, rfl, exactlyOne_mkError id _ _⟩

lemma dispatch_spec (client : McpClient) (request : McpRequest) (id : Nat)
    (h : request.id = some id) :
    (dispatch client request id).id = id ∧
    (dispatch client request id).jsonrpc = "2.0" ∧
    (dispatch client request id).exactlyOneOutcome := by
  unfold dispatch
  split
  · exact ⟨rfl, rfl, exactlyOne_success id _⟩
  · exact ⟨rfl, rfl, exactlyOne_success id _⟩
  · exact handle_tools_call_spec client request id h
  · exact ⟨rfl, rfl, exactlyOne_success id _⟩
  · exact handle_describe_method_spec request id h
  · exact ⟨rfl, rfl, exactlyOne_mkError id _ _⟩

lemma handle_mcp_request_spec (client : McpClient) (request : McpRequest)
    (id : Nat) (h : request.id = some id) :
    ∃ response, handle_mcp_request client request = some response ∧
      response.id = id ∧ response.jsonrpc = "2.0" ∧
      response.exactlyOneOutcome := by
  refine ⟨dispatch client request id, ?_, dispatch_spec client request id h⟩
  unfold handle_mcp_request
  rw [h]

/-- C1: a POST request whose id is absent or JSON null (so deserialized to
`none`) yields HTTP 200 with an empty body, with no dispatch and no remote
call — the outcome is `none` (no JSON-RPC response object) for every
remote client, so no client operation can influence or be required by it. -/
theorem notification_produces_no_response (client : McpClient)
    (request : McpRequest) (h : request.id = none) :
    mcp_http_reply client request = (200, none) ∧
    ∀ client2 : McpClient, handle_mcp_request client2 request = none := by
  constructor
  · unfold mcp_http_reply handle_mcp_request
    rw [h]
  · intro client2
    unfold handle_mcp_request
    rw [h]

theorem notification_produces_no_response_witness :
    mcp_http_reply okClient notificationRequest = (200, none) ∧
    ∀ client2 : McpClient,
      handle_mcp_request client2 notificationRequest = none :=
  notification_produces_no_response okClient notificationRequest rfl

/-- C2: every request with a present id gets exactly one response, whose
id echoes the request's id, and which populates exactly one of the
`result` and `error` fields — across every dispatch branch, every method
string, and every remote-client outcome. -/
theorem response_echoes_id_exactly_one_outcome (client : McpClient)
    (request : McpRequest) (id : Nat) (h : request.id = some id) :
    ∃ response, handle_mcp_request client request = some response ∧
      response.id = id ∧ response.exactlyOneOutcome := by
  obtain ⟨response, hresp, hid, _, hone⟩ :=
    handle_mcp_request_spec client request id h
  exact ⟨response, hresp, hid, hone⟩

theorem response_echoes_id_exactly_one_outcome_witness :
    ∃ response,
      handle_mcp_request okClient unknownMethodRequest5 = some response ∧
      response.id = 5 ∧ response.exactlyOneOutcome :=
  response_echoes_id_exactly_one_outcome okClient unknownMethodRequest5 5 rfl

/-- C6: a request with a present id and a method outside the five
recognized ones yields protocol error `-32601` whose message embeds the
method name; and dispatch always resolves to a well-formed response
object (exactly one of `result`/`error`), whatever the method string. -/
theorem unknown_method_error_and_total_dispatch (client : McpClient)
    (request : McpRequest) (id : Nat) (h : request.id = some id) :
    (request.method ∉ mcpMethodNames →
      handle_mcp_request client request =
        some (McpResponse.mkError id (-32601)
          ("Method not found: " ++ request.method)) ∧
      ∃ front, "Method not found: " ++ request.method =
        front ++ request.method) ∧
    ∃ response, handle_mcp_request client request = some response ∧
      response.exactlyOneOutcome := by
  constructor
  · intro hm
    refine ⟨?_, "Method not found: ", rfl⟩
    have hd : handle_mcp_request client request =
        some (dispatch client request id) := by
      unfold handle_mcp_request
      rw [h]
    rw [hd]
    congr 1
    unfold dispatch
    split
    all_goals first
      | rfl
      | (exfalso; simp_all [mcpMethodNames])
  · obtain ⟨response, hresp, _, _, hone⟩ :=
      handle_mcp_request_spec client request id h
    exact ⟨response, hresp, hone⟩

theorem unknown_method_error_and_total_dispatch_witness :
    (unknownMethodRequest.method ∉ mcpMethodNames →
      handle_mcp_request okClient unknownMethodRequest =
        some (McpResponse.mkError 3 (-32601)
          ("Method not found: " ++ unknownMethodRequest.method)) ∧
      ∃ front, "Method not found: " ++ unknownMethodRequest.method =
        front ++ unknownMethodRequest.method) ∧
    ∃ response, handle_mcp_request okClient unknownMethodRequest =
      some response ∧ response.exactlyOneOutcome :=
  unknown_method_error_and_total_dispatch okClient unknownMethodRequest 3 rfl

/-- C10: every response the relay constructs carries `jsonrpc = "2.0"`,
and dispatch never inspects the inbound `jsonrpc` field: two requests
differing only in that field are handled identically. -/
theorem jsonrpc_constant_and_not_inspected :
    (∀ (client : McpClient) (request : McpRequest) (response : McpResponse),
      handle_mcp_request client request = some response →
      response.jsonrpc = "2.0") ∧
    (∀ (client : McpClient) (request : McpRequest) (v1 v2 : String),
      handle_mcp_request client { request with jsonrpc := v1 } =
      handle_mcp_request client { request with jsonrpc := v2 }) := by
  constructor
  · intro client request response h
    cases hid : request.id with
    | none =>
      unfold handle_mcp_request at h
      rw [hid] at h
      cases h
    | some n =>
      obtain ⟨r, hr, _, hj, _⟩ := handle_mcp_request_spec client request n hid
      rw [hr] at h
      injection h with h
      rw [← h]
      exact hj
  · intro client request v1 v2
    cases request
    rfl

theorem jsonrpc_constant_and_not_inspected_witness :
    handle_mcp_request okClient
      { jsonrpc := "1.0", method := "initialize", params := none, id := some 1 } =
    handle_mcp_request okClient
      { jsonrpc := "2.0", method := "initialize", params := none, id := some 1 } :=
  jsonrpc_constant_and_not_inspected.2 okClient
    { jsonrpc := "", method := "initialize", params := none, id := some 1 }
    "1.0" "2.0"

lemma handle_tools_call_parse_error (client : McpClient)
    (request : McpRequest) (id : Nat) (e : String)
    (h : request.id = some id)
    (hp : (match request.params with
           | some params => parseToolCallParams params
           | none => .error "Missing params") = Except.error e) :
    handle_tools_call client request =
      McpResponse.mkError id (-32602) ("Invalid params: " ++ e) := by
  unfold handle_tools_call
  rw [h, hp]
  rfl

lemma handle_tools_call_parse_ok (client : McpClient)
    (request : McpRequest) (id : Nat) (tool_params : McpToolCallParams)
    (h : request.id = some id)
    (hp : (match request.params with
           | some params => parseToolCallParams params
           | none => .error "Missing params") = Except.ok tool_params) :
    handle_tools_call client request =
      match tool_params.name with
      | "available-coupons" => handle_available_coupons client id
      | "auto-bind-coupons" => handle_auto_bind_coupons client id
      | "my-coupons" => handle_my_coupons client id
      | "now-time-info" => handle_current_time client id
      | _ => McpResponse.mkError id (-32601)
               ("Tool not found: " ++ tool_params.name) := by
  unfold handle_tools_call
  rw [h, hp]
  rfl

/-- C3: for `tools/call` on each of the four tools, a successful remote
call yields a success envelope (`error` absent) whose result has
`isError = false` and a single text content item carrying the remote
payload; a failed remote call still yields a success envelope whose
result has `isError = true` and a single text item carrying the error
message. -/
theorem tool_call_success_and_failure_shapes (client : McpClient)
    (id : Nat) (tool : String) (h : tool ∈ mcpToolNames) :
    (∀ payload, remote_tool_outcome client tool = .ok payload →
      handle_mcp_request client (tool_call_request id tool) =
        some { jsonrpc := "2.0"
               result := some (.obj
                 [("content", .arr [.obj [("type", .str "text"),
                                          ("text", .str payload)]]),
                  ("isError", .bool false)])
               error := none
               id := id }) ∧
    (∀ msg, remote_tool_outcome client tool = .error msg →
      handle_mcp_request client (tool_call_request id tool) =
        some { jsonrpc := "2.0"
               result := some (.obj
                 [("content", .arr [.obj [("type", .str "text"),
                                          ("text", .str msg)]]),
                  ("isError", .bool true)])
               error := none
               id := id }) := by
  simp only [mcpToolNames, List.mem_cons, List.not_mem_nil, or_false] at h
  rcases h with rfl | rfl | rfl | rfl
  · constructor
    · intro payload hp
      have hp2 : client.get_available_coupons = Except.ok payload := hp
      have h1 : handle_mcp_request client
          (tool_call_request id "available-coupons") =
          some (handle_available_coupons client id) := rfl
      rw [h1]
      unfold handle_available_coupons
      rw [hp2]
      rfl
    · intro msg hp
      have hp2 : client.get_available_coupons = Except.error msg := hp
      have h1 : handle_mcp_request client
          (tool_call_request id "available-coupons") =
          some (handle_available_coupons client id) := rfl
      rw [h1]
      unfold handle_available_coupons
      rw [hp2]
      rfl
  · constructor
    · intro payload hp
      have hp2 : client.auto_bind_coupons = Except.ok payload := hp
      have h1 : handle_mcp_request client
          (tool_call_request id "auto-bind-coupons") =
          some (handle_auto_bind_coupons client id) := rfl
      rw [h1]
      unfold handle_auto_bind_coupons
      rw [hp2]
      rfl
    · intro msg hp
      have hp2 : client.auto_bind_coupons = Except.error msg := hp
      have h1 : handle_mcp_request client
          (tool_call_request id "auto-bind-coupons") =
          some (handle_auto_bind_coupons client id) := rfl
      rw [h1]
      unfold handle_auto_bind_coupons
      rw [hp2]
      rfl
  · constructor
    · intro payload hp
      have hp2 : client.get_my_coupons = Except.ok payload := hp
      have h1 : handle_mcp_request client
          (tool_call_request id "my-coupons") =
          some (handle_my_coupons client id) := rfl
      rw [h1]
      unfold handle_my_coupons
      rw [hp2]
      rfl
    · intro msg hp
      have hp2 : client.get_my_coupons = Except.error msg := hp
      have h1 : handle_mcp_request client
          (tool_call_request id "my-coupons") =
          some (handle_my_coupons client id) := rfl
      rw [h1]
      unfold handle_my_coupons
      rw [hp2]
      rfl
  · constructor
    · intro payload hp
      have hp2 : client.get_current_time = Except.ok payload := hp
      have h1 : handle_mcp_request client
          (tool_call_request id "now-time-info") =
          some (handle_current_time client id) := rfl
      rw [h1]
      unfold handle_current_time
      rw [hp2]
      rfl
    · intro msg hp
      have hp2 : client.get_current_time = Except.error msg := hp
      have h1 : handle_mcp_request client
          (tool_call_request id "now-time-info") =
          some (handle_current_time client id) := rfl
      rw [h1]
      unfold handle_current_time
      rw [hp2]
      rfl

theorem tool_call_success_and_failure_shapes_witness :
    "available-coupons" ∈ mcpToolNames ∧
    remote_tool_outcome okClient "available-coupons" = .ok "coupon list" ∧
    handle_mcp_request okClient (tool_call_request 2 "available-coupons") =
      some { jsonrpc := "2.0"
             result := some (.obj
               [("content", .arr [.obj [("type", .str "text"),
                                        ("text", .str "coupon list")]]),
                ("isError", .bool false)])
             error := none
             id := 2 } :=
  ⟨by simp [mcpToolNames], rfl,
   (tool_call_success_and_failure_shapes okClient 2 "available-coupons"
     (by simp [mcpToolNames])).1 "coupon list" rfl⟩

/-- C4: for a `tools/call` request with a present id, missing or
unparseable params give protocol error `-32602`; a parsed name outside
the four tools gives `-32601`; a recognized name makes the response the
image of the matching Remote Tool Client operation's outcome. -/
theorem tools_call_param_validation (client : McpClient) (id : Nat)
    (v : String) :
    (handle_mcp_request client
       { jsonrpc := v, method := "tools/call", params := none,
         id := some id } =
     some (McpResponse.mkError id (-32602)
       ("Invalid params: " ++ "Missing params"))) ∧
    (∀ p e, parseToolCallParams p = .error e →
      handle_mcp_request client
        { jsonrpc := v, method := "tools/call", params := some p,
          id := some id } =
      some (McpResponse.mkError id (-32602) ("Invalid params: " ++ e))) ∧
    (∀ p tool_params, parseToolCallParams p = .ok tool_params →
      tool_params.name ∉ mcpToolNames →
      handle_mcp_request client
        { jsonrpc := v, method := "tools/call", params := some p,
          id := some id } =
      some (McpResponse.mkError id (-32601)
        ("Tool not found: " ++ tool_params.name))) ∧
    (∀ p tool_params, parseToolCallParams p = .ok tool_params →
      tool_params.name ∈ mcpToolNames →
      handle_mcp_request client
        { jsonrpc := v, method := "tools/call", params := some p,
          id := some id } =
      some (match remote_tool_outcome client tool_params.name with
            | .ok r => McpResponse.success_tool_result id
                         [McpContent.textItem r]
            | .error e => McpResponse.tool_error id e)) := by
  refine ⟨rfl, ?_, ?_, ?_⟩
  · intro p e hp
    have h1 : handle_mcp_request client
        { jsonrpc := v, method := "tools/call", params := some p,
          id := some id } =
        some (handle_tools_call client
          { jsonrpc := v, method := "tools/call", params := some p,
            id := some id }) := rfl
    rw [h1, handle_tools_call_parse_error client
      { jsonrpc := v, method := "tools/call", params := some p,
        id := some id } id e rfl hp]
  · intro p tool_params hp hname
    have h1 : handle_mcp_request client
        { jsonrpc := v, method := "tools/call", params := some p,
          id := some id } =
        some (handle_tools_call client
          { jsonrpc := v, method := "tools/call", params := some p,
            id := some id }) := rfl
    rw [h1, handle_tools_call_parse_ok client
      { jsonrpc := v, method := "tools/call", params := some p,
        id := some id } id tool_params rfl hp]
    congr 1
    split
    all_goals first
      | rfl
      | (exfalso; simp_all [mcpToolNames])
  · intro p tool_params hp hname
    have h1 : handle_mcp_request client
        { jsonrpc := v, method := "tools/call", params := some p,
          id := some id } =
        some (handle_tools_call client
          { jsonrpc := v, method := "tools/call", params := some p,
            id := some id }) := rfl
    rw [h1, handle_tools_call_parse_ok client
      { jsonrpc := v, method := "tools/call", params := some p,
        id := some id } id tool_params rfl hp]
    congr 1
    simp only [mcpToolNames, List.mem_cons, List.not_mem_nil,
      or_false] at hname
    rcases hname with h | h | h | h <;> rw [h] <;> rfl

theorem tools_call_param_validation_witness :
    handle_mcp_request okClient
      { jsonrpc := "2.0", method := "tools/call", params := none,
        id := some 9 } =
    some (McpResponse.mkError 9 (-32602)
      ("Invalid params: " ++ "Missing params")) :=
  (tools_call_param_validation okClient 9 "2.0").1

lemma handle_describe_request_name_match (id : Nat) (name : String) :
    handle_describe_method (describe_request id name) =
      match name with
      | "initialize" => McpResponse.success id describe_initialize.toJson
      | "tools/list" => McpResponse.success id describe_tools_list.toJson
      | "tools/call" => McpResponse.success id describe_tools_call.toJson
      | "system.listMethods" =>
        McpResponse.success id describe_list_methods.toJson
      | "system.describeMethod" =>
        McpResponse.success id describe_describe_method.toJson
      | "available-coupons" | "tools/call:available-coupons" =>
        McpResponse.success id describe_available_coupons_tool.toJson
      | "auto-bind-coupons" | "tools/call:auto-bind-coupons" =>
        McpResponse.success id describe_auto_bind_coupons_tool.toJson
      | "my-coupons" | "tools/call:my-coupons" =>
        McpResponse.success id describe_my_coupons_tool.toJson
      | "now-time-info" | "tools/call:now-time-info" =>
        McpResponse.success id describe_current_time_tool.toJson
      | _ => McpResponse.mkError id (-32601)
               ("Method not found: " ++ name) := by
  unfold handle_describe_method
  rfl

/-- C5: `system.describeMethod` serves a static descriptor for exactly
the nine recognized names (five protocol methods and four tools), each
tool name matchable bare or with the `tools/call:` alias with identical
responses, the descriptor's own `name` field being the bare name; any
other name yields error `-32601`. -/
theorem describe_method_names_and_aliases (client : McpClient) (id : Nat) :
    (∀ tool ∈ mcpToolNames,
      handle_mcp_request client (describe_request id tool) =
      handle_mcp_request client
        (describe_request id ("tools/call:" ++ tool))) ∧
    (∀ name ∈ describeRecognizedNames,
      ∃ response, handle_mcp_request client (describe_request id name) =
        some response ∧ response.error = none ∧ response.id = id) ∧
    (∀ name ∈ mcpMethodNames ++ mcpToolNames,
      ∃ response descriptor,
        handle_mcp_request client (describe_request id name) =
          some response ∧
        response.result = some descriptor ∧
        descriptor.lookup "name" = some (.str name)) ∧
    (∀ name ∉ describeRecognizedNames,
      handle_mcp_request client (describe_request id name) =
        some (McpResponse.mkError id (-32601)
          ("Method not found: " ++ name))) := by
  refine ⟨?_, ?_, ?_, ?_⟩
  · intro tool ht
    simp only [mcpToolNames, List.mem_cons, List.not_mem_nil,
      or_false] at ht
    rcases ht with rfl | rfl | rfl | rfl <;> rfl
  · intro name hn
    simp only [describeRecognizedNames, List.mem_cons, List.not_mem_nil,
      or_false] at hn
    rcases hn with rfl | rfl | rfl | rfl | rfl | rfl | rfl | rfl | rfl |
      rfl | rfl | rfl | rfl <;>
      exact ⟨_, rfl, rfl, rfl⟩
  · intro name hn
    simp only [mcpMethodNames, mcpToolNames, List.append_eq,
      List.cons_append, List.nil_append, List.mem_cons, List.not_mem_nil,
      or_false] at hn
    rcases hn with rfl | rfl | rfl | rfl | rfl | rfl | rfl | rfl | rfl <;>
      exact ⟨_, _, rfl, rfl, rfl⟩
  · intro name hn
    have h1 : handle_mcp_request client (describe_request id name) =
        some (handle_describe_method (describe_request id name)) := rfl
    rw [h1, handle_describe_request_name_match id name]
    congr 1
    split
    all_goals first
      | rfl
      | (exfalso; simp_all [describeRecognizedNames])

theorem describe_method_names_and_aliases_witness :
    "my-coupons" ∈ mcpToolNames ∧
    handle_mcp_request okClient (describe_request 4 "my-coupons") =
    handle_mcp_request okClient
      (describe_request 4 ("tools/call:" ++ "my-coupons")) :=
  ⟨by simp [mcpToolNames],
   (describe_method_names_and_aliases okClient 4).1 "my-coupons"
     (by simp [mcpToolNames])⟩

/-- C7: `validate_token` returns `false` exactly when the probe completes
with HTTP 401; every other completed status returns `true`; a
transport-level failure surfaces as an error value, never as `false`. -/
theorem validate_token_classification (probe : Except String Nat) :
    (validate_token probe = .ok false ↔ probe = .ok 401) ∧
    (∀ status, probe = .ok status → status ≠ 401 →
      validate_token probe = .ok true) ∧
    (∀ e, probe = .error e →
      validate_token probe = .error ("网络请求失败: " ++ e)) := by
  refine ⟨⟨?_, ?_⟩, ?_, ?_⟩
  · intro h
    cases probe with
    | ok status =>
      by_cases hs : status = 401
      · rw [hs]
      · exfalso
        simp [validate_token, hs] at h
    | error e =>
      exfalso
      simp [validate_token] at h
  · intro h
    rw [h]
    rfl
  · intro status h hs
    rw [h]
    simp [validate_token, hs]
  · intro e h
    rw [h]
    rfl

theorem validate_token_classification_witness :
    validate_token (Except.ok 401) = .ok false ∧
    validate_token (Except.ok 500) = .ok true ∧
    validate_token (Except.error "connection refused") =
      .error ("网络请求失败: " ++ "connection refused") :=
  ⟨((validate_token_classification (.ok 401)).1).mpr rfl,
   (validate_token_classification (.ok 500)).2.1 500 rfl (by decide),
   (validate_token_classification (.error "connection refused")).2.2
     "connection refused" rfl⟩

/-- C8: `call_tool` fails with status and raw body on a non-2xx HTTP
status; on 2xx with a protocol error it fails with that code and message;
on a result with `isError` set it fails with the newline-join of every
textual content item; otherwise it succeeds with the newline-join of
exactly the `text`-typed items that carry text, skipping other items; and
a 2xx envelope with neither `error` nor `result` fails with a
response-shape error.  A transport failure propagates as-is. -/
theorem call_tool_outcome_classification
    (parseResponse : String → Except String Mcp.McpResponse) :
    (∀ e, call_tool_outcome parseResponse (.error e) = .error e) ∧
    (∀ r : HttpResponse, status_is_success r.status = false →
      call_tool_outcome parseResponse (.ok r) =
        .error ("MCP Server error: " ++ toString r.status ++ " - " ++
                r.body)) ∧
    (∀ (r : HttpResponse) (mcp : Mcp.McpResponse),
      status_is_success r.status = true →
      parseResponse r.body = .ok mcp →
      (∀ err, mcp.error = some err →
        call_tool_outcome parseResponse (.ok r) =
          .error ("MCP error " ++ toString err.code ++ ": " ++
                  err.message)) ∧
      (mcp.error = none → mcp.result = none →
        call_tool_outcome parseResponse (.ok r) =
          .error "MCP response missing result") ∧
      (∀ result, mcp.error = none → mcp.result = some result →
        result.is_error = true →
        call_tool_outcome parseResponse (.ok r) =
          .error ("MCP tool error: " ++ String.intercalate "\n"
            (result.content.filterMap (fun c => c.text)))) ∧
      (∀ result, mcp.error = none → mcp.result = some result →
        result.is_error = false →
        call_tool_outcome parseResponse (.ok r) =
          .ok (String.intercalate "\n"
            ((result.content.filter
                (fun c => c.content_type == "text")).filterMap
              (fun c => c.text))))) := by
  refine ⟨?_, ?_, ?_⟩
  · intro e
    rfl
  · intro r h
    simp [call_tool_outcome, h]
  · intro r mcp hs hparse
    refine ⟨?_, ?_, ?_, ?_⟩
    · intro err herr
      simp [call_tool_outcome, hs, hparse, herr]
    · intro herr hres
      simp [call_tool_outcome, hs, hparse, herr, hres]
    · intro result herr hres hflag
      simp [call_tool_outcome, hs, hparse, herr, hres, hflag]
    · intro result herr hres hflag
      simp [call_tool_outcome, hs, hparse, herr, hres, hflag]

theorem call_tool_outcome_classification_witness :
    call_tool_outcome (fun _ => .error "unused") (.error "dns failure") =
      .error "dns failure" :=
  (call_tool_outcome_classification (fun _ => .error "unused")).1
    "dns failure"

lemma natDecDigits_of_lt (n : Nat) (h : n < 10) :
    natDecDigits n = [Nat.digitChar n] := by
  unfold natDecDigits
  rw [dif_pos h]

lemma natDecDigits_of_ge (n : Nat) (h : ¬ n < 10) :
    natDecDigits n = natDecDigits (n / 10) ++ [Nat.digitChar (n % 10)] := by
  conv_lhs => rw [natDecDigits]
  rw [dif_neg h]

lemma digitChar_isDigit (d : Nat) (h : d < 10) :
    (Nat.digitChar d).isDigit = true := by
  interval_cases d <;> decide

lemma digitChar_toNat (d : Nat) (h : d < 10) :
    (Nat.digitChar d).toNat - 48 = d := by
  interval_cases d <;> decide

lemma natDecDigits_all_isDigit (n : Nat) :
    (natDecDigits n).all Char.isDigit = true := by
  induction n using Nat.strong_induction_on with
  | _ n ih =>
    by_cases h : n < 10
    · rw [natDecDigits_of_lt n h]
      simp [digitChar_isDigit n h]
    · rw [natDecDigits_of_ge n h]
      have hdiv := ih (n / 10) (Nat.div_lt_self (by omega) (by omega))
      simp [List.all_append, hdiv,
        digitChar_isDigit (n % 10) (Nat.mod_lt _ (by omega))]

lemma natDecDigits_ne_nil (n : Nat) : natDecDigits n ≠ [] := by
  by_cases h : n < 10
  · rw [natDecDigits_of_lt n h]
    simp
  · rw [natDecDigits_of_ge n h]
    simp

lemma natDecDigits_head_ne_plus (n : Nat) :
    (natDecDigits n).head? ≠ some '+' := by
  intro hc
  have hall := natDecDigits_all_isDigit n
  cases hd : natDecDigits n with
  | nil => rw [hd] at hc; cases hc
  | cons c cs =>
    rw [hd] at hc hall
    simp only [List.head?_cons, Option.some.injEq] at hc
    simp only [List.all_cons, Bool.and_eq_true] at hall
    rw [hc] at hall
    cases hall.1

lemma foldl_natDecDigits (n : Nat) (a : Nat) :
    (natDecDigits n).foldl (fun a c => a * 10 + (c.toNat - 48)) a =
      a * 10 ^ (natDecDigits n).length + n := by
  induction n using Nat.strong_induction_on generalizing a with
  | _ n ih =>
    by_cases h : n < 10
    · rw [natDecDigits_of_lt n h]
      simp [List.foldl, digitChar_toNat n h]
    · rw [natDecDigits_of_ge n h, List.foldl_append,
        ih (n / 10) (Nat.div_lt_self (by omega) (by omega)) a]
      simp only [List.foldl, List.length_append, List.length_cons,
        List.length_nil]
      rw [digitChar_toNat (n % 10) (Nat.mod_lt _ (by omega))]
      calc (a * 10 ^ (natDecDigits (n / 10)).length + n / 10) * 10 + n % 10
          = a * (10 ^ (natDecDigits (n / 10)).length * 10) +
            (n / 10 * 10 + n % 10) := by ring
        _ = a * 10 ^ ((natDecDigits (n / 10)).length + 0 + 1) + n := by
            rw [Nat.div_add_mod', Nat.add_zero, pow_succ]

lemma decValue_natDecDigits (n : Nat) :
    (natDecDigits n).foldl (fun a c => a * 10 + (c.toNat - 48)) 0 = n := by
  rw [foldl_natDecDigits n 0]
  simp

lemma parse_natDecString (n : Nat) (h : n < 4294967296) :
    parse_u32_string (natDecString n) = some n := by
  unfold parse_u32_string natDecString
  simp only [String.data]
  rw [if_neg (natDecDigits_head_ne_plus n)]
  rw [if_neg (by simp [List.isEmpty_iff, natDecDigits_ne_nil n])]
  rw [if_pos (natDecDigits_all_isDigit n)]
  rw [decValue_natDecDigits n]
  rw [if_pos h]

/-- C9 counterexample: the JSON number `4294967296 = 2^32` is a
non-negative integer carried as a JSON number, yet `deserialize_optional_id`
rejects it instead of succeeding with that integer, because the value
does not fit in a `u32`. -/
theorem id_deserialization_rejects_two_pow_32 :
    deserialize_optional_id (some (.num (.posInt 4294967296))) =
      .error "Invalid ID: number out of range" := rfl

/-- C9 (amended): absent or `null` ids give a notification; a JSON number
or canonical numeric string carrying a non-negative integer below `2^32`
deserializes to that integer; numbers of `2^32` or more, negative or
float numbers, strings the `u32` parser rejects, and booleans, arrays and
objects all fail. -/
theorem id_deserialization_characterization :
    (deserialize_optional_id none = .ok none) ∧
    (deserialize_optional_id (some .null) = .ok none) ∧
    (∀ n : Nat, n < 4294967296 →
      deserialize_optional_id (some (.num (.posInt n))) = .ok (some n) ∧
      deserialize_optional_id (some (.str (natDecString n))) =
        .ok (some n)) ∧
    (∀ n : Nat, 4294967296 ≤ n →
      deserialize_optional_id (some (.num (.posInt n))) =
        .error "Invalid ID: number out of range") ∧
    (∀ i : Int, deserialize_optional_id (some (.num (.negInt i))) =
      .error "Invalid ID: number out of range") ∧
    (deserialize_optional_id (some (.num .float)) =
      .error "Invalid ID: number out of range") ∧
    (∀ s, parse_u32_string s = none →
      deserialize_optional_id (some (.str s)) =
        .error "Invalid ID: string is not a valid number") ∧
    (∀ b, deserialize_optional_id (some (.bool b)) =
      .error "Invalid ID: must be number, string, or null") ∧
    (∀ items, deserialize_optional_id (some (.arr items)) =
      .error "Invalid ID: must be number, string, or null") ∧
    (∀ fields, deserialize_optional_id (some (.obj fields)) =
      .error "Invalid ID: must be number, string, or null") := by
  refine ⟨rfl, rfl, ?_, ?_, fun i => rfl, rfl, ?_, fun b => rfl,
    fun items => rfl, fun fields => rfl⟩
  · intro n h
    constructor
    · simp [deserialize_optional_id, JsonNumber.as_u64, u32_try_from, h]
    · simp [deserialize_optional_id, parse_natDecString n h]
  · intro n h
    simp [deserialize_optional_id, JsonNumber.as_u64, u32_try_from,
      Nat.not_lt.mpr h]
  · intro s h
    simp [deserialize_optional_id, h]

theorem id_deserialization_characterization_witness :
    deserialize_optional_id (some (.num (.posInt 53))) = .ok (some 53) ∧
    deserialize_optional_id (some (.str (natDecString 53))) =
      .ok (some 53) :=
  id_deserialization_characterization.2.2.1 53 (by decide)
